import Mathlib

/-!
Verification development for the periodic spend-limit authenticator
(`x/authenticator` spend limits).  The repository ships the behavioural
test suite `spend_limits_test.go`; the authenticator implementation itself
(Initialize / Authenticate / ConfirmExecution, the period calculator, the
spend ledger and the valuation mode) is not part of the sources, so those
components are modelled from the specification and checked against the
concrete expectations recorded in the test suite.

Conventions of the embedding:
- instants are civil UTC date-times; `daysFromCivil` is the standard
  Gregorian day-numbering algorithm (epoch day 0 = 1970-01-01);
- a `PeriodWindow` is identified by its canonical start instant, in seconds
  since the Unix epoch (an `Int`); equality of start instants defines
  "same period";
- amounts are `Nat` (the reference-unit integers are non-negative and
  arbitrary precision in the source chain);
- fallible valuation returns `Except String Nat` (the error string is the
  explicit block reason).
-/

deriving instance DecidableEq for Except

namespace SpendLimits

/-- Civil UTC date-time, the clock domain of the authenticator. -/
structure DateTime where
  year : Nat
  month : Nat
  day : Nat
  hour : Nat
  minute : Nat
  second : Nat
deriving DecidableEq, Repr

/-- Number of days since 1970-01-01 of the civil date `y-m-d`
(standard Gregorian day-numbering; valid for years from 1 onward). -/
def daysFromCivil (y m d : Nat) : Int :=
  let yAdj : Nat := if m ≤ 2 then y - 1 else y
  let era : Nat := yAdj / 400
  let yoe : Nat := yAdj - era * 400
  let mShift : Nat := if 2 < m then m - 3 else m + 9
  let doy : Nat := (153 * mShift + 2) / 5 + d - 1
  let doe : Nat := yoe * 365 + yoe / 4 - yoe / 100 + doy
  (era * 146097 + doe : Int) - 719468

/-- Epoch-day number of a date-time. -/
def DateTime.epochDay (t : DateTime) : Int :=
  daysFromCivil t.year t.month t.day

/-- Seconds since the Unix epoch of a date-time. -/
def DateTime.toUnix (t : DateTime) : Int :=
  t.epochDay * 86400 + (t.hour * 3600 + t.minute * 60 + t.second : Nat)

/-- Period kinds accepted by the spend-limit configuration. -/
inductive Period where
  | day
  | week
  | month
  | year
deriving DecidableEq, Repr

/-- Epoch-day number of the Monday that starts the 7-day block containing
epoch day `d`.  Epoch day 0 (1970-01-01) is a Thursday, so Mondays are the
days `d` with `(d + 3) % 7 = 0` (day -3 = 1969-12-29 is the anchor Monday). -/
def mondayOfDay (d : Int) : Int :=
  d - (d + 3) % 7

/-- Modelled from the spec: `PeriodCalculator.WindowFor` maps an instant and
a period kind to the canonical start instant (seconds since epoch) of the
calendar-aligned window containing it.  Day windows are midnight-to-midnight
UTC; week windows are fixed 7-day blocks anchored on Mondays; month and year
windows start at the first instant of the calendar month / year. -/
def windowFor (t : DateTime) : Period → Int
  | .day => t.epochDay * 86400
  | .week => mondayOfDay t.epochDay * 86400
  | .month => daysFromCivil t.year t.month 1 * 86400
  | .year => daysFromCivil t.year 1 1 * 86400

/-- Balances are finite denomination-to-amount mappings (Go `sdk.Coins`),
embedded as association lists with unique denomination keys. -/
abbrev Balances := List (String × Nat)

/-- Amount held of denomination `d` (0 when absent), i.e. `Coins.AmountOf`. -/
def amountOf (b : Balances) (d : String) : Nat :=
  match b.find? (fun p => p.fst = d) with
  | some p => p.snd
  | none => 0

/-- Value-computation modes selected by configuration (`AbsoluteValue` is the
only mode the sources use). -/
inductive ValueMode where
  | absoluteValue
deriving DecidableEq, Repr

/-- Modelled from the spec: `SpendLimitConfig`, the stateless configuration
descriptor produced by `Initialize` (reference denomination and value mode
come from the authenticator constructor, allowed amount and period kind from
the validated payload). -/
structure SpendLimitConfig where
  refDenom : String
  allowed : Nat
  period : Period
  mode : ValueMode
deriving DecidableEq, Repr

/-- Modelled from the spec: `SpendState`, the per-account persisted ledger
record: current period window (canonical start instant), accumulated spend in
reference units, and the transient pre-execution balance snapshot.  The zero
value is materialised lazily on first use. -/
structure SpendState where
  window : Int
  accumulated : Nat
  snapshot : Balances
deriving DecidableEq, Repr

/-- Zero value of `SpendState`, the state of an account never seen before. -/
def SpendState.zero : SpendState :=
  { window := 0, accumulated := 0, snapshot := [] }

/-- Price oracle collaborator: reference value of an `amount` of `denom`, or
an error (no route, no price, arithmetic failure) carrying its reason. -/
abbrev Oracle := String → Nat → Except String Nat

/-- Modelled from the spec: `PriceOracle.ValueInReference` — identity when the
denomination is already the reference denomination, otherwise the resolved
route/price collaborator result; failures are surfaced, never defaulted. -/
def valueInReference (refDenom : String) (oracle : Oracle) (denom : String)
    (amt : Nat) : Except String Nat :=
  if denom = refDenom then .ok amt else oracle denom amt

/-- Sum, over the listed snapshot entries, of the reference value of the
decrease of each entry's balance relative to the post-execution read
(truncated at zero); entries whose balance did not decrease are skipped and
never consult the oracle.  Any valuation failure aborts with its reason. -/
def sumDecreases (refDenom : String) (oracle : Oracle) (post : Balances) :
    List (String × Nat) → Except String Nat
  | [] => .ok 0
  | p :: rest => do
    let total ← sumDecreases refDenom oracle post rest
    let dec := p.snd - amountOf post p.fst
    if dec = 0 then
      pure total
    else do
      let v ← valueInReference refDenom oracle p.fst dec
      pure (total + v)

/-- Modelled from the spec: `AbsoluteValue` spend computation as pinned down by
the repository's tests — for each denomination of the pre-execution snapshot,
the decrease of the account's balance between snapshot and post-execution read
(truncated at zero) is valued in the reference denomination, and the values
are summed.  Any valuation failure aborts the computation with its reason. -/
def spendValue (refDenom : String) (oracle : Oracle) : ValueMode →
    Balances → Balances → Except String Nat
  | .absoluteValue, pre, post => sumDecreases refDenom oracle post pre

/-- Modelled from the spec: `SpendLedger.ApplySpend` — reset accumulated spend
to zero before adding when the stored window differs from the observed one,
add the delta, and always set the stored window to the observed window.  The
snapshot field is not touched here (ConfirmExecution clears it). -/
def applySpend (st : SpendState) (window : Int) (deltaValue : Nat) :
    SpendState :=
  { st with
    window := window
    accumulated := (if st.window = window then st.accumulated else 0)
      + deltaValue }

/-- Outcome of the authentication phase. -/
inductive AuthResult where
  | authenticated
  | notAuthenticated (reason : String)
deriving DecidableEq, Repr

/-- Modelled from the spec: `Authenticate` records the pre-execution balances
via `RecordSnapshot`, leaving accumulated spend and the stored window alone,
and always succeeds. -/
def authenticate (st : SpendState) (balances : Balances) :
    AuthResult × SpendState :=
  (.authenticated, { st with snapshot := balances })

/-- Outcome of the confirmation phase. -/
inductive ConfirmResult where
  | confirm
  | block (reason : String)
deriving DecidableEq, Repr

/-- Whether a confirmation result is Confirm (`ConfirmationResult.IsConfirm`). -/
def ConfirmResult.isConfirm : ConfirmResult → Bool
  | .confirm => true
  | .block _ => false

/-- Modelled from the spec: `ConfirmExecution` — compute the observed window,
value the spend from snapshot and post-execution balances (fail-closed on any
valuation error), project the accumulated spend, block when the projection
exceeds the allowed amount leaving the ledger untouched, otherwise apply the
spend; the snapshot is cleared on every outcome. -/
def confirmExecution (cfg : SpendLimitConfig) (oracle : Oracle)
    (st : SpendState) (postBalances : Balances) (now : DateTime) :
    ConfirmResult × SpendState :=
  let window := windowFor now cfg.period
  match spendValue cfg.refDenom oracle cfg.mode st.snapshot postBalances with
  | .error e => (.block e, { st with snapshot := [] })
  | .ok v =>
    let projected := (if st.window = window then st.accumulated else 0) + v
    if cfg.allowed < projected then
      (.block "period spend limit exceeded", { st with snapshot := [] })
    else
      (.confirm, { applySpend st window v with snapshot := [] })

/-- Raw `Initialize` payload: the two recognised fields, each possibly absent,
plus whatever unknown extra fields the JSON object carried. -/
structure RawConfig where
  allowed : Option Int
  period : Option String
  extra : List (String × String)
deriving DecidableEq, Repr

/-- Recognised period strings of the payload. -/
def parsePeriod : String → Option Period
  | "day" => some .day
  | "week" => some .week
  | "month" => some .month
  | "year" => some .year
  | _ => none

/-- Modelled from the spec: `Initialize` — validates the payload (required
non-negative `allowed`, required recognised `period`; unknown fields are
ignored) and produces the stateless configuration descriptor. -/
def initializeCfg (refDenom : String) (mode : ValueMode) (raw : RawConfig) :
    Except String SpendLimitConfig :=
  match raw.allowed with
  | none => .error "missing allowed"
  | some a =>
    if a < 0 then .error "allowed must be non-negative"
    else
      match raw.period with
      | none => .error "missing period"
      | some p =>
        match parsePeriod p with
        | none => .error "unrecognized period"
        | some period =>
          .ok { refDenom := refDenom, allowed := a.toNat, period := period,
                mode := mode }

/-- Per-account persisted ledger: the persistence collaborator keyed by the
account identity (zero value for accounts never written). -/
abbrev Ledger := String → SpendState

/-- Ledger with every account at the zero value. -/
def emptyLedger : Ledger := fun _ => SpendState.zero

/-- Write one account's record. -/
def setState (L : Ledger) (acct : String) (st : SpendState) : Ledger :=
  fun x => if x = acct then st else L x

/-- One host-visible operation against the authenticator: the Authenticate
phase (with the balances the balance collaborator reports at that moment) or
the ConfirmExecution phase (with the post-execution balances and clock). -/
inductive Op where
  | auth (acct : String) (balances : Balances)
  | confirm (acct : String) (postBalances : Balances) (now : DateTime)

/-- Effect of one operation on the ledger. -/
def stepOp (cfg : SpendLimitConfig) (oracle : Oracle) (L : Ledger) :
    Op → Ledger
  | .auth a bal => setState L a (authenticate (L a) bal).snd
  | .confirm a post now =>
    setState L a (confirmExecution cfg oracle (L a) post now).snd

/-- Effect of a sequence of operations on the ledger. -/
def runOps (cfg : SpendLimitConfig) (oracle : Oracle) (L : Ledger) :
    List Op → Ledger
  | [] => L
  | op :: ops => runOps cfg oracle (stepOp cfg oracle L op) ops

/-- Outcomes of running ConfirmExecution repeatedly on one account's state,
with the post-balances and clock of each attempt; returns the outcome list
and the final state. -/
def runConfirms (cfg : SpendLimitConfig) (oracle : Oracle)
    (st : SpendState) : List (Balances × DateTime) →
    List ConfirmResult × SpendState
  | [] => ([], st)
  | (post, now) :: rest =>
    let r := confirmExecution cfg oracle st post now
    let tail := runConfirms cfg oracle r.snd rest
    (r.fst :: tail.fst, tail.snd)

/-! Test fixtures, translated from `spend_limits_test.go`.  The oracle used by
the fixtures reports a missing route for every non-reference denomination;
the fixtures only ever move the reference denomination `uosmo`, whose value
is the identity, so the oracle is never consulted. -/

/-- Oracle with no price routes at all. -/
def noRouteOracle : Oracle := fun d _ => .error ("no route for " ++ d)

/-- One step of `TestPeriodTransitionWithAccumulatedSpends`: a block time, a
spending amount sent to a distinct receiver, and the expected
`result.IsConfirm()` value. -/
structure SpendFixture where
  now : DateTime
  amt : Nat
  expectConfirm : Bool
deriving DecidableEq, Repr

/-- Runs a `timeSpendingList` the way the test does: at each step the block
time is set, Authenticate snapshots the current balance, the bank transfer of
the step amount to the receiver executes unconditionally, and then
ConfirmExecution decides; the account balance carries over between steps. -/
def runScenario (cfg : SpendLimitConfig) (oracle : Oracle) :
    List SpendFixture → Nat → SpendState → List Bool
  | [], _, _ => []
  | f :: fs, bal, st =>
    let st1 := (authenticate st [(cfg.refDenom, bal)]).snd
    let post : Balances := [(cfg.refDenom, bal - f.amt)]
    let r := confirmExecution cfg oracle st1 post f.now
    r.fst.isConfirm :: runScenario cfg oracle fs (bal - f.amt) r.snd

/-- The "Day with accumulated spendings" table (allowed 100, period day). -/
def dayFixtures : List SpendFixture :=
  [ ⟨⟨2024, 1, 1, 0, 0, 0⟩, 150, false⟩,
    ⟨⟨2024, 1, 1, 0, 0, 0⟩, 30, true⟩,
    ⟨⟨2024, 1, 1, 12, 0, 0⟩, 40, true⟩,
    ⟨⟨2024, 1, 2, 0, 0, 0⟩, 31, true⟩,
    ⟨⟨2024, 1, 2, 12, 0, 0⟩, 50, true⟩,
    ⟨⟨2024, 1, 3, 12, 0, 0⟩, 50, true⟩,
    ⟨⟨2024, 1, 3, 12, 0, 0⟩, 50, true⟩,
    ⟨⟨2024, 1, 3, 12, 0, 0⟩, 1, false⟩,
    ⟨⟨2024, 1, 4, 12, 0, 0⟩, 1, true⟩ ]

/-- The "Week with accumulated spendings" table (allowed 200, period week). -/
def weekFixtures : List SpendFixture :=
  [ ⟨⟨2024, 1, 1, 0, 0, 0⟩, 100, true⟩,
    ⟨⟨2024, 1, 4, 0, 0, 0⟩, 50, true⟩,
    ⟨⟨2024, 1, 7, 0, 0, 0⟩, 51, false⟩,
    ⟨⟨2024, 1, 8, 0, 0, 0⟩, 150, true⟩,
    ⟨⟨2024, 2, 8, 0, 0, 0⟩, 200, true⟩,
    ⟨⟨2024, 2, 11, 15, 0, 6⟩, 200, false⟩,
    ⟨⟨2024, 2, 12, 15, 0, 6⟩, 200, true⟩ ]

/-- The "Month with accumulated spendings" table (allowed 300, period month). -/
def monthFixtures : List SpendFixture :=
  [ ⟨⟨2024, 1, 1, 0, 0, 0⟩, 100, true⟩,
    ⟨⟨2024, 1, 15, 0, 0, 0⟩, 100, true⟩,
    ⟨⟨2024, 1, 31, 0, 0, 0⟩, 101, false⟩,
    ⟨⟨2024, 2, 1, 0, 0, 0⟩, 150, true⟩,
    ⟨⟨2025, 2, 1, 0, 0, 0⟩, 300, true⟩ ]

/-- The "Year with accumulated spendings" table (allowed 500, period year). -/
def yearFixtures : List SpendFixture :=
  [ ⟨⟨2024, 1, 1, 0, 0, 0⟩, 200, true⟩,
    ⟨⟨2024, 6, 1, 0, 0, 0⟩, 200, true⟩,
    ⟨⟨2024, 12, 31, 0, 0, 0⟩, 101, false⟩,
    ⟨⟨2024, 12, 31, 0, 0, 0⟩, 300, false⟩,
    ⟨⟨2024, 12, 31, 0, 0, 0⟩, 99, true⟩,
    ⟨⟨2025, 1, 1, 0, 0, 0⟩, 300, true⟩,
    ⟨⟨2028, 1, 1, 0, 0, 0⟩, 500, true⟩,
    ⟨⟨2028, 6, 10, 0, 0, 0⟩, 1, false⟩ ]

/-- Configuration a fixture table runs under. -/
def mkCfg (allowed : Nat) (p : Period) : SpendLimitConfig :=
  { refDenom := "uosmo", allowed := allowed, period := p,
    mode := .absoluteValue }

/-- One case of `TestPeriodTransition`: Authenticate happens at `t1`, the
account then sends `amt` of `uosmo` to itself, and ConfirmExecution runs at
`t2`; `expectConfirm` is the `result.IsConfirm()` value the test requires. -/
structure TransitionFixture where
  allowed : Nat
  period : Period
  t1 : DateTime
  t2 : DateTime
  amt : Nat
  expectConfirm : Bool
deriving DecidableEq, Repr

/-- The `TestPeriodTransition` table ("Day Dec31 to Jan1", "Week Dec to Jan",
"Year Dec31 to Jan1"). -/
def transitionFixtures : List TransitionFixture :=
  [ ⟨100, .day, ⟨2023, 12, 31, 23, 59, 59⟩, ⟨2024, 1, 1, 0, 0, 1⟩,
      50, true⟩,
    ⟨100, .week, ⟨2023, 12, 31, 23, 59, 59⟩, ⟨2024, 1, 7, 0, 0, 1⟩,
      101, true⟩,
    ⟨100, .year, ⟨2023, 12, 31, 23, 59, 59⟩, ⟨2024, 1, 1, 0, 0, 1⟩,
      50, true⟩ ]

/-- Runs one `TestPeriodTransition` case against the modelled authenticator:
the account starts from the zero ledger state with a 1000 `uosmo` balance,
Authenticate snapshots it, the self-transfer leaves balances unchanged, and
ConfirmExecution decides at `t2`. -/
def runTransition (f : TransitionFixture) : Bool :=
  let cfg := mkCfg f.allowed f.period
  let bal : Balances := [("uosmo", 1000)]
  let st1 := (authenticate SpendState.zero bal).snd
  (confirmExecution cfg noRouteOracle st1 bal f.t2).fst.isConfirm

/-- A single transfer leg of an executed transaction. -/
structure TransferLeg where
  sender : String
  receiver : String
  denom : String
  amount : Nat
deriving DecidableEq, Repr

/-- Modelled from the spec: the reading of AbsoluteValue in §4.4 step 3 under
which the spend "sums, per outgoing transfer leg (not net balance delta), the
reference-value of every amount that left the account".  This definition
follows the spec's words (it needs the transfer legs as input, which the
`compute(pre, post, oracle)` interface does not actually provide) and exists
to be compared with the balance-delta semantics the tests pin down. -/
def grossOutgoingSpendValue (refDenom : String) (oracle : Oracle)
    (acct : String) (legs : List TransferLeg) : Except String Nat :=
  legs.foldr
    (fun leg acc => do
      let total ← acc
      if leg.sender = acct then do
        let v ← valueInReference refDenom oracle leg.denom leg.amount
        pure (total + v)
      else
        pure total)
    (.ok 0)

/-- ConfirmExecution with the spend valued by `grossOutgoingSpendValue`
instead of the balance-delta computation; the decision rule is unchanged. -/
def confirmExecutionGross (cfg : SpendLimitConfig) (oracle : Oracle)
    (acct : String) (legs : List TransferLeg) (st : SpendState)
    (now : DateTime) : ConfirmResult × SpendState :=
  let window := windowFor now cfg.period
  match grossOutgoingSpendValue cfg.refDenom oracle acct legs with
  | .error e => (.block e, { st with snapshot := [] })
  | .ok v =>
    let projected := (if st.window = window then st.accumulated else 0) + v
    if cfg.allowed < projected then
      (.block "period spend limit exceeded", { st with snapshot := [] })
    else
      (.confirm, { applySpend st window v with snapshot := [] })

/-- Runs one `TestPeriodTransition` case with the gross-outgoing valuation:
the executed transaction is the single self-transfer leg of the case. -/
def runTransitionGross (f : TransitionFixture) : Bool :=
  let cfg := mkCfg f.allowed f.period
  let legs : List TransferLeg :=
    [⟨"testAccount", "testAccount", "uosmo", f.amt⟩]
  let st1 := (authenticate SpendState.zero [("uosmo", 1000)]).snd
  (confirmExecutionGross cfg noRouteOracle "testAccount" legs st1
    f.t2).fst.isConfirm

/-! Helper lemmas about the modelled operations. -/

/-- When valuation succeeds, ConfirmExecution is exactly the projection rule
of the spec. -/
theorem confirmExecution_ok_eq (cfg : SpendLimitConfig) (oracle : Oracle)
    (st : SpendState) (post : Balances) (now : DateTime) (v : Nat)
    (hv : spendValue cfg.refDenom oracle cfg.mode st.snapshot post = .ok v) :
    confirmExecution cfg oracle st post now =
      (if cfg.allowed <
          (if st.window = windowFor now cfg.period then st.accumulated else 0)
            + v then
        (ConfirmResult.block "period spend limit exceeded",
          { st with snapshot := [] })
      else
        (ConfirmResult.confirm,
          { applySpend st (windowFor now cfg.period) v with
              snapshot := [] })) := by
  unfold confirmExecution
  rw [hv]

/-- When valuation fails, ConfirmExecution blocks with that reason and only
clears the snapshot. -/
theorem confirmExecution_error_eq (cfg : SpendLimitConfig) (oracle : Oracle)
    (st : SpendState) (post : Balances) (now : DateTime) (e : String)
    (he : spendValue cfg.refDenom oracle cfg.mode st.snapshot post
      = .error e) :
    confirmExecution cfg oracle st post now
      = (.block e, { st with snapshot := [] }) := by
  unfold confirmExecution
  rw [he]

/-- ConfirmExecution keeps the accumulated spend at or below the allowed
amount. -/
theorem confirmExecution_accumulated_le (cfg : SpendLimitConfig)
    (oracle : Oracle) (st : SpendState) (post : Balances) (now : DateTime)
    (h : st.accumulated ≤ cfg.allowed) :
    (confirmExecution cfg oracle st post now).snd.accumulated
      ≤ cfg.allowed := by
  cases hv : spendValue cfg.refDenom oracle cfg.mode st.snapshot post with
  | error e => rw [confirmExecution_error_eq cfg oracle st post now e hv]; exact h
  | ok v =>
    rw [confirmExecution_ok_eq cfg oracle st post now v hv]
    by_cases hb : cfg.allowed <
        (if st.window = windowFor now cfg.period then st.accumulated else 0)
          + v
    · simpa [hb] using h
    · simp only [hb, if_false, applySpend]
      omega

/-- One operation keeps every account's accumulated spend at or below the
allowed amount. -/
theorem stepOp_accumulated_le (cfg : SpendLimitConfig) (oracle : Oracle)
    (L : Ledger) (op : Op)
    (h : ∀ a, (L a).accumulated ≤ cfg.allowed) :
    ∀ a, (stepOp cfg oracle L op a).accumulated ≤ cfg.allowed := by
  intro a
  cases op with
  | auth acct bal =>
    simp only [stepOp, setState]
    split
    · simpa [authenticate] using h acct
    · exact h a
  | confirm acct post now =>
    simp only [stepOp, setState]
    split
    · exact confirmExecution_accumulated_le cfg oracle (L acct) post now
        (h acct)
    · exact h a

/-- A whole operation sequence keeps every account's accumulated spend at or
below the allowed amount. -/
theorem runOps_accumulated_le (cfg : SpendLimitConfig) (oracle : Oracle)
    (ops : List Op) (L : Ledger)
    (h : ∀ a, (L a).accumulated ≤ cfg.allowed) :
    ∀ a, (runOps cfg oracle L ops a).accumulated ≤ cfg.allowed := by
  induction ops generalizing L with
  | nil => exact h
  | cons op ops ih =>
    exact ih (stepOp cfg oracle L op) (stepOp_accumulated_le cfg oracle L op h)

/-- A Block outcome of ConfirmExecution only clears the snapshot. -/
theorem confirmExecution_block_frame (cfg : SpendLimitConfig)
    (oracle : Oracle) (st : SpendState) (post : Balances) (now : DateTime)
    (r : String)
    (h : (confirmExecution cfg oracle st post now).fst = .block r) :
    (confirmExecution cfg oracle st post now).snd
      = { st with snapshot := [] } := by
  cases hv : spendValue cfg.refDenom oracle cfg.mode st.snapshot post with
  | error e => rw [confirmExecution_error_eq cfg oracle st post now e hv]
  | ok v =>
    rw [confirmExecution_ok_eq cfg oracle st post now v hv]
    rw [confirmExecution_ok_eq cfg oracle st post now v hv] at h
    by_cases hb : cfg.allowed <
        (if st.window = windowFor now cfg.period then st.accumulated else 0)
          + v
    · simp [hb]
    · simp [hb] at h

/-- A Confirm outcome of ConfirmExecution applies exactly the ApplySpend
update (with the snapshot cleared). -/
theorem confirmExecution_confirm_eq (cfg : SpendLimitConfig)
    (oracle : Oracle) (st : SpendState) (post : Balances) (now : DateTime)
    (v : Nat)
    (hv : spendValue cfg.refDenom oracle cfg.mode st.snapshot post = .ok v)
    (h : (confirmExecution cfg oracle st post now).fst = .confirm) :
    (confirmExecution cfg oracle st post now).snd
      = { applySpend st (windowFor now cfg.period) v with snapshot := [] }
    := by
  rw [confirmExecution_ok_eq cfg oracle st post now v hv]
  rw [confirmExecution_ok_eq cfg oracle st post now v hv] at h
  by_cases hb : cfg.allowed <
      (if st.window = windowFor now cfg.period then st.accumulated else 0)
        + v
  · simp [hb] at h
  · simp [hb]

/-- Unfolding of `runConfirms` on a cons cell. -/
theorem runConfirms_cons (cfg : SpendLimitConfig) (oracle : Oracle)
    (st : SpendState) (post : Balances) (now : DateTime)
    (rest : List (Balances × DateTime)) :
    runConfirms cfg oracle st ((post, now) :: rest)
      = ((confirmExecution cfg oracle st post now).fst ::
          (runConfirms cfg oracle
            (confirmExecution cfg oracle st post now).snd rest).fst,
         (runConfirms cfg oracle
            (confirmExecution cfg oracle st post now).snd rest).snd) := rfl

/-- A result that is not Confirm is a Block with some reason. -/
theorem isConfirm_false_iff (r : ConfirmResult) :
    r.isConfirm = false ↔ ∃ e, r = .block e := by
  cases r <;> simp [ConfirmResult.isConfirm]

/-- A run of consecutive ConfirmExecutions in which every outcome is a Block
leaves accumulated spend and the stored window unchanged. -/
theorem runConfirms_all_block_frame (cfg : SpendLimitConfig)
    (oracle : Oracle) (attempts : List (Balances × DateTime))
    (st : SpendState)
    (h : ∀ res ∈ (runConfirms cfg oracle st attempts).fst,
      res.isConfirm = false) :
    (runConfirms cfg oracle st attempts).snd.accumulated = st.accumulated ∧
    (runConfirms cfg oracle st attempts).snd.window = st.window := by
  induction attempts generalizing st with
  | nil => exact ⟨rfl, rfl⟩
  | cons a rest ih =>
    obtain ⟨post, now⟩ := a
    rw [runConfirms_cons] at h ⊢
    have hhead : (confirmExecution cfg oracle st post now).fst.isConfirm
        = false := h _ (List.mem_cons_self _ _)
    obtain ⟨e, he⟩ := (isConfirm_false_iff _).mp hhead
    have hframe := confirmExecution_block_frame cfg oracle st post now e he
    have htail := ih (confirmExecution cfg oracle st post now).snd
      (fun res hres => h res (List.mem_cons_of_mem _ hres))
    exact ⟨htail.1.trans (by rw [hframe]), htail.2.trans (by rw [hframe])⟩

/-- Looking up a denomination present in a balance list with unique keys
returns its amount. -/
theorem amountOf_of_mem (pre : Balances) (d : String) (a : Nat)
    (hnd : (pre.map Prod.fst).Nodup) (hm : (d, a) ∈ pre) :
    amountOf pre d = a := by
  induction pre with
  | nil => cases hm
  | cons p rest ih =>
    rcases List.mem_cons.mp hm with heq | hmem
    · subst heq
      simp [amountOf, List.find?]
    · have hne : p.fst ≠ d := by
        intro hcontra
        have hd : d ∈ rest.map Prod.fst :=
          List.mem_map.mpr ⟨(d, a), hmem, rfl⟩
        rw [List.map_cons] at hnd
        exact (List.nodup_cons.mp hnd).1 (hcontra ▸ hd)
      have : amountOf (p :: rest) d = amountOf rest d := by
        simp [amountOf, List.find?, hne]
      rw [this]
      exact ih (by rw [List.map_cons] at hnd; exact (List.nodup_cons.mp hnd).2)
        hmem

/-- When no listed entry's balance decreased, the summed decrease value is
zero and the oracle is never consulted. -/
theorem sumDecreases_zero (refDenom : String) (oracle : Oracle)
    (post : Balances) (l : List (String × Nat))
    (h : ∀ p ∈ l, p.snd - amountOf post p.fst = 0) :
    sumDecreases refDenom oracle post l = .ok 0 := by
  induction l with
  | nil => rfl
  | cons p rest ih =>
    have hp : p.snd - amountOf post p.fst = 0 :=
      h p (List.mem_cons_self _ _)
    have hrest := ih (fun q hq => h q (List.mem_cons_of_mem _ hq))
    simp [sumDecreases, hrest, hp]

/-- A transaction that leaves balances exactly as snapshotted (for instance a
self-directed transfer) has spend value zero in AbsoluteValue mode. -/
theorem spendValue_self_eq_zero (refDenom : String) (oracle : Oracle)
    (pre : Balances) (hnd : (pre.map Prod.fst).Nodup) :
    spendValue refDenom oracle .absoluteValue pre pre = .ok 0 := by
  unfold spendValue
  apply sumDecreases_zero
  intro p hp
  have hm : (p.fst, p.snd) ∈ pre := by
    rw [Prod.mk.eta]
    exact hp
  rw [amountOf_of_mem pre p.fst p.snd hnd hm]
  omega

/-! Claim theorems. -/

/-- C1: For every configuration (every configuration Initialize can produce
has a non-negative allowed amount), every price oracle, every account and
every sequence of Authenticate / ConfirmExecution operations starting from
the empty ledger, the accumulated spend stored in the ledger never exceeds
the allowed amount; and a ConfirmExecution whose projected spend would
exceed the allowed amount returns Block and leaves accumulated spend exactly
as it was before the call. -/
theorem spend_never_exceeds_allowed (cfg : SpendLimitConfig)
    (oracle : Oracle) (ops : List Op) (acct : String) (st : SpendState)
    (post : Balances) (now : DateTime) (v : Nat)
    (hv : spendValue cfg.refDenom oracle cfg.mode st.snapshot post = .ok v)
    (hover : cfg.allowed <
      (if st.window = windowFor now cfg.period then st.accumulated else 0)
        + v) :
    (runOps cfg oracle emptyLedger ops acct).accumulated ≤ cfg.allowed ∧
    (confirmExecution cfg oracle st post now).fst
      = .block "period spend limit exceeded" ∧
    (confirmExecution cfg oracle st post now).snd.accumulated
      = st.accumulated := by
  refine ⟨runOps_accumulated_le cfg oracle ops emptyLedger
    (fun a => Nat.zero_le _) acct, ?_, ?_⟩
  · rw [confirmExecution_ok_eq cfg oracle st post now v hv]
    simp [hover]
  · rw [confirmExecution_ok_eq cfg oracle st post now v hv]
    simp [hover]

/-- Witness for C1: a two-operation run stays within the allowed amount, and
a concrete over-limit spend (150 against an allowed amount of 100) blocks
with the accumulated spend left at its prior value. -/
theorem spend_never_exceeds_allowed_witness :
    (runOps (mkCfg 100 .day) noRouteOracle emptyLedger
        [.auth "osmo1a" [("uosmo", 1000)],
         .confirm "osmo1a" [("uosmo", 850)] ⟨2024, 1, 1, 0, 0, 0⟩]
        "osmo1a").accumulated ≤ 100 ∧
    (confirmExecution (mkCfg 100 .day) noRouteOracle
        ⟨0, 0, [("uosmo", 1000)]⟩ [("uosmo", 850)]
        ⟨2024, 1, 1, 0, 0, 0⟩).fst = .block "period spend limit exceeded" ∧
    (confirmExecution (mkCfg 100 .day) noRouteOracle
        ⟨0, 0, [("uosmo", 1000)]⟩ [("uosmo", 850)]
        ⟨2024, 1, 1, 0, 0, 0⟩).snd.accumulated = 0 :=
  spend_never_exceeds_allowed (mkCfg 100 .day) noRouteOracle
    [.auth "osmo1a" [("uosmo", 1000)],
     .confirm "osmo1a" [("uosmo", 850)] ⟨2024, 1, 1, 0, 0, 0⟩]
    "osmo1a" ⟨0, 0, [("uosmo", 1000)]⟩ [("uosmo", 850)]
    ⟨2024, 1, 1, 0, 0, 0⟩ 150 (by decide) (by decide)

/-- C2: With the observed window and a successfully valued spend,
ConfirmExecution decides by exactly the projection rule of the spec — it
blocks with reason "period spend limit exceeded" without modifying the
ledger when the projection exceeds the allowed amount and otherwise applies
ApplySpend and confirms — and the modelled rule reproduces the recorded
outcomes of the "Day with accumulated spendings" test scenario. -/
theorem confirmExecution_decides_by_projection_rule
    (cfg : SpendLimitConfig) (oracle : Oracle) (st : SpendState)
    (post : Balances) (now : DateTime) (v : Nat)
    (hv : spendValue cfg.refDenom oracle cfg.mode st.snapshot post = .ok v) :
    confirmExecution cfg oracle st post now
      = (if cfg.allowed <
            (if st.window = windowFor now cfg.period then st.accumulated
              else 0) + v then
          (ConfirmResult.block "period spend limit exceeded",
            { st with snapshot := [] })
        else
          (ConfirmResult.confirm,
            { applySpend st (windowFor now cfg.period) v with
                snapshot := [] })) ∧
    runScenario (mkCfg 100 .day) noRouteOracle dayFixtures 10000
        SpendState.zero
      = dayFixtures.map (fun f => f.expectConfirm) :=
  ⟨confirmExecution_ok_eq cfg oracle st post now v hv, by decide⟩

/-- Witness for C2: the projection rule evaluated at a concrete in-window
spend of 40 against 30 already accumulated. -/
theorem confirmExecution_decides_by_projection_rule_witness :
    confirmExecution (mkCfg 100 .day) noRouteOracle
        ⟨19723 * 86400, 30, [("uosmo", 1000)]⟩ [("uosmo", 960)]
        ⟨2024, 1, 1, 12, 0, 0⟩
      = (if (100 : Nat) <
            (if (19723 * 86400 : Int) = windowFor ⟨2024, 1, 1, 12, 0, 0⟩
                Period.day then 30 else 0) + 40 then
          (ConfirmResult.block "period spend limit exceeded",
            ⟨19723 * 86400, 30, []⟩)
        else
          (ConfirmResult.confirm,
            { applySpend ⟨19723 * 86400, 30, [("uosmo", 1000)]⟩
                (windowFor ⟨2024, 1, 1, 12, 0, 0⟩ Period.day) 40 with
                snapshot := [] })) ∧
    runScenario (mkCfg 100 .day) noRouteOracle dayFixtures 10000
        SpendState.zero
      = dayFixtures.map (fun f => f.expectConfirm) :=
  confirmExecution_decides_by_projection_rule (mkCfg 100 .day) noRouteOracle
    ⟨19723 * 86400, 30, [("uosmo", 1000)]⟩ [("uosmo", 960)]
    ⟨2024, 1, 1, 12, 0, 0⟩ 40 (by decide)

/-- C3: ApplySpend resets accumulated spend to zero before adding the new
spend value whenever the observed window differs from the stored one (it
never merely decrements: the result is exactly the new spend value), adds to
the accumulated spend otherwise, always sets the stored window to the
observed window; and a ConfirmExecution that confirms while observing a new
window leaves accumulated spend exactly equal to the new spend value. -/
theorem applySpend_resets_accumulated_on_new_window :
    (∀ (st : SpendState) (w : Int) (v : Nat), st.window ≠ w →
      (applySpend st w v).accumulated = v) ∧
    (∀ (st : SpendState) (w : Int) (v : Nat), st.window = w →
      (applySpend st w v).accumulated = st.accumulated + v) ∧
    (∀ (st : SpendState) (w : Int) (v : Nat),
      (applySpend st w v).window = w) ∧
    (∀ (cfg : SpendLimitConfig) (oracle : Oracle) (st : SpendState)
      (post : Balances) (now : DateTime) (v : Nat),
      spendValue cfg.refDenom oracle cfg.mode st.snapshot post = .ok v →
      st.window ≠ windowFor now cfg.period →
      (confirmExecution cfg oracle st post now).fst = .confirm →
      (confirmExecution cfg oracle st post now).snd.accumulated = v) := by
  refine ⟨?_, ?_, ?_, ?_⟩
  · intro st w v h
    simp [applySpend, h]
  · intro st w v h
    simp [applySpend, h]
  · intro st w v
    simp [applySpend]
  · intro cfg oracle st post now v hv hw hc
    rw [confirmExecution_confirm_eq cfg oracle st post now v hv hc]
    simp [applySpend, hw]

/-- Witness for C3: a period rollover from the stored day window of
2024-01-02 to 2024-01-03 discards the 81 previously accumulated and leaves
exactly the new spend of 50. -/
theorem applySpend_resets_accumulated_on_new_window_witness :
    (applySpend ⟨19724 * 86400, 81, []⟩ (19725 * 86400) 50).accumulated
      = 50 ∧
    (applySpend ⟨19725 * 86400, 50, []⟩ (19725 * 86400) 50).accumulated
      = 100 ∧
    (applySpend ⟨19724 * 86400, 81, []⟩ (19725 * 86400) 50).window
      = 19725 * 86400 ∧
    (confirmExecution (mkCfg 100 .day) noRouteOracle
        ⟨19724 * 86400, 81, [("uosmo", 1000)]⟩ [("uosmo", 950)]
        ⟨2024, 1, 3, 12, 0, 0⟩).snd.accumulated = 50 :=
  ⟨applySpend_resets_accumulated_on_new_window.1 ⟨19724 * 86400, 81, []⟩
      (19725 * 86400) 50 (by decide),
   applySpend_resets_accumulated_on_new_window.2.1 ⟨19725 * 86400, 50, []⟩
      (19725 * 86400) 50 (by decide),
   applySpend_resets_accumulated_on_new_window.2.2.1 ⟨19724 * 86400, 81, []⟩
      (19725 * 86400) 50,
   applySpend_resets_accumulated_on_new_window.2.2.2 (mkCfg 100 .day)
      noRouteOracle ⟨19724 * 86400, 81, [("uosmo", 1000)]⟩ [("uosmo", 950)]
      ⟨2024, 1, 3, 12, 0, 0⟩ 50 (by decide) (by decide) (by decide)⟩

/-- C4: The decision and the ledger mutation are atomic as a pair: every
Block outcome of ConfirmExecution — including a run of consecutive Blocks —
leaves both the accumulated spend and the stored window of the ledger
unchanged (so a later smaller spend sees the same budget), and a Confirm
outcome performs exactly the ApplySpend ledger update, never skipping it. -/
theorem decision_and_ledger_mutation_atomic :
    (∀ (cfg : SpendLimitConfig) (oracle : Oracle) (st : SpendState)
      (post : Balances) (now : DateTime) (r : String),
      (confirmExecution cfg oracle st post now).fst = .block r →
      (confirmExecution cfg oracle st post now).snd.accumulated
        = st.accumulated ∧
      (confirmExecution cfg oracle st post now).snd.window = st.window) ∧
    (∀ (cfg : SpendLimitConfig) (oracle : Oracle) (st : SpendState)
      (attempts : List (Balances × DateTime)),
      (∀ res ∈ (runConfirms cfg oracle st attempts).fst,
        res.isConfirm = false) →
      (runConfirms cfg oracle st attempts).snd.accumulated
        = st.accumulated ∧
      (runConfirms cfg oracle st attempts).snd.window = st.window) ∧
    (∀ (cfg : SpendLimitConfig) (oracle : Oracle) (st : SpendState)
      (post : Balances) (now : DateTime) (v : Nat),
      spendValue cfg.refDenom oracle cfg.mode st.snapshot post = .ok v →
      (confirmExecution cfg oracle st post now).fst = .confirm →
      (confirmExecution cfg oracle st post now).snd
        = { applySpend st (windowFor now cfg.period) v with
            snapshot := [] }) := by
  refine ⟨?_, ?_, ?_⟩
  · intro cfg oracle st post now r h
    rw [confirmExecution_block_frame cfg oracle st post now r h]
    exact ⟨rfl, rfl⟩
  · intro cfg oracle st attempts h
    exact runConfirms_all_block_frame cfg oracle attempts st h
  · intro cfg oracle st post now v hv hc
    exact confirmExecution_confirm_eq cfg oracle st post now v hv hc

/-- Witness for C4: a single concrete Block keeps accumulated spend and
window; two consecutive blocked attempts keep them as well; and a concrete
Confirm performs the ApplySpend update. -/
theorem decision_and_ledger_mutation_atomic_witness :
    ((confirmExecution (mkCfg 100 .day) noRouteOracle
        ⟨0, 0, [("uosmo", 1000)]⟩ [("uosmo", 850)]
        ⟨2024, 1, 1, 0, 0, 0⟩).snd.accumulated = 0 ∧
     (confirmExecution (mkCfg 100 .day) noRouteOracle
        ⟨0, 0, [("uosmo", 1000)]⟩ [("uosmo", 850)]
        ⟨2024, 1, 1, 0, 0, 0⟩).snd.window = 0) ∧
    ((runConfirms (mkCfg 100 .day) noRouteOracle ⟨0, 500, [("uosmo", 1000)]⟩
        [([("uosmo", 400)], ⟨1970, 1, 1, 0, 0, 0⟩),
         ([], ⟨1970, 1, 1, 0, 0, 0⟩)]).snd.accumulated = 500 ∧
     (runConfirms (mkCfg 100 .day) noRouteOracle ⟨0, 500, [("uosmo", 1000)]⟩
        [([("uosmo", 400)], ⟨1970, 1, 1, 0, 0, 0⟩),
         ([], ⟨1970, 1, 1, 0, 0, 0⟩)]).snd.window = 0) ∧
    (confirmExecution (mkCfg 100 .day) noRouteOracle
        ⟨0, 0, [("uosmo", 1000)]⟩ [("uosmo", 970)]
        ⟨2024, 1, 1, 0, 0, 0⟩).snd
      = { applySpend ⟨0, 0, [("uosmo", 1000)]⟩
            (windowFor ⟨2024, 1, 1, 0, 0, 0⟩ Period.day) 30 with
          snapshot := [] } :=
  ⟨decision_and_ledger_mutation_atomic.1 (mkCfg 100 .day) noRouteOracle
      ⟨0, 0, [("uosmo", 1000)]⟩ [("uosmo", 850)] ⟨2024, 1, 1, 0, 0, 0⟩
      "period spend limit exceeded" (by decide),
   decision_and_ledger_mutation_atomic.2.1 (mkCfg 100 .day) noRouteOracle
      ⟨0, 500, [("uosmo", 1000)]⟩
      [([("uosmo", 400)], ⟨1970, 1, 1, 0, 0, 0⟩),
       ([], ⟨1970, 1, 1, 0, 0, 0⟩)] (by decide),
   decision_and_ledger_mutation_atomic.2.2 (mkCfg 100 .day) noRouteOracle
      ⟨0, 0, [("uosmo", 1000)]⟩ [("uosmo", 970)] ⟨2024, 1, 1, 0, 0, 0⟩ 30
      (by decide) (by decide)⟩

/-- C5 counterexample: the claim mandates that a self-directed transfer of
101 under an allowed amount of 100 in a fresh window is blocked, but the
repository's own `TestPeriodTransition` table contains exactly that case
("Week Dec to Jan": self-transfer of 101, allowed 100, fresh ledger) and
requires `result.IsConfirm()` to be `true`; the gross-outgoing-leg semantics
the claim describes would block it, while the balance-delta semantics
confirms it as the test demands. -/
theorem selfTransfer_gross_spend_contradicts_tests :
    (⟨100, .week, ⟨2023, 12, 31, 23, 59, 59⟩, ⟨2024, 1, 7, 0, 0, 1⟩, 101,
        true⟩ : TransitionFixture) ∈ transitionFixtures ∧
    runTransitionGross ⟨100, .week, ⟨2023, 12, 31, 23, 59, 59⟩,
        ⟨2024, 1, 7, 0, 0, 1⟩, 101, true⟩ = false ∧
    runTransition ⟨100, .week, ⟨2023, 12, 31, 23, 59, 59⟩,
        ⟨2024, 1, 7, 0, 0, 1⟩, 101, true⟩ = true := by
  decide

/-- C5 (amended): In AbsoluteValue mode the spendValue computed by
ConfirmExecution is the per-denomination net decrease of the account's
balance between the pre-execution snapshot and the post-execution read,
valued in the reference denomination — a transaction that leaves balances
unchanged, in particular any self-directed transfer, counts as zero spend —
and the modelled authenticator reproduces every `TestPeriodTransition`
expectation, confirming the 101 self-transfer under an allowed amount of 100
in a fresh window. -/
theorem absoluteValue_spend_is_net_balance_decrease (refDenom : String)
    (oracle : Oracle) (pre : Balances)
    (hnd : (pre.map Prod.fst).Nodup) :
    spendValue refDenom oracle .absoluteValue pre pre = .ok 0 ∧
    transitionFixtures.map runTransition
      = transitionFixtures.map (fun f => f.expectConfirm) ∧
    runTransition ⟨100, .week, ⟨2023, 12, 31, 23, 59, 59⟩,
        ⟨2024, 1, 7, 0, 0, 1⟩, 101, true⟩ = true :=
  ⟨spendValue_self_eq_zero refDenom oracle pre hnd, by decide, by decide⟩

/-- Witness for the amended C5: the concrete 1000-uosmo balance snapshot of
the test values an unchanged post-balance at zero spend. -/
theorem absoluteValue_spend_is_net_balance_decrease_witness :
    spendValue "uosmo" noRouteOracle .absoluteValue [("uosmo", 1000)]
        [("uosmo", 1000)] = .ok 0 ∧
    transitionFixtures.map runTransition
      = transitionFixtures.map (fun f => f.expectConfirm) ∧
    runTransition ⟨100, .week, ⟨2023, 12, 31, 23, 59, 59⟩,
        ⟨2024, 1, 7, 0, 0, 1⟩, 101, true⟩ = true :=
  absoluteValue_spend_is_net_balance_decrease "uosmo" noRouteOracle
    [("uosmo", 1000)] (by decide)

/-- C6: A transaction whose projected spend equals the allowed amount
exactly is confirmed, and one whose projected spend exceeds the allowed
amount by one reference unit is blocked. -/
theorem boundary_exact_allowed_confirms (cfg : SpendLimitConfig)
    (oracle : Oracle) (st : SpendState) (post : Balances) (now : DateTime)
    (v : Nat)
    (hv : spendValue cfg.refDenom oracle cfg.mode st.snapshot post = .ok v) :
    ((if st.window = windowFor now cfg.period then st.accumulated else 0) + v
        = cfg.allowed →
      (confirmExecution cfg oracle st post now).fst = .confirm) ∧
    ((if st.window = windowFor now cfg.period then st.accumulated else 0) + v
        = cfg.allowed + 1 →
      (confirmExecution cfg oracle st post now).fst
        = .block "period spend limit exceeded") := by
  constructor
  · intro he
    rw [confirmExecution_ok_eq cfg oracle st post now v hv]
    simp [he]
  · intro he
    rw [confirmExecution_ok_eq cfg oracle st post now v hv]
    simp [he]

/-- Witness for C6: with 400 accumulated in the current year window and an
allowed amount of 500, a spend of 100 (projection exactly 500) confirms and
a spend of 101 (projection 501) blocks. -/
theorem boundary_exact_allowed_confirms_witness :
    (confirmExecution (mkCfg 500 .year) noRouteOracle
        ⟨19723 * 86400, 400, [("uosmo", 1000)]⟩ [("uosmo", 900)]
        ⟨2024, 6, 1, 0, 0, 0⟩).fst = .confirm ∧
    (confirmExecution (mkCfg 500 .year) noRouteOracle
        ⟨19723 * 86400, 400, [("uosmo", 1000)]⟩ [("uosmo", 899)]
        ⟨2024, 6, 1, 0, 0, 0⟩).fst = .block "period spend limit exceeded" :=
  ⟨(boundary_exact_allowed_confirms (mkCfg 500 .year) noRouteOracle
      ⟨19723 * 86400, 400, [("uosmo", 1000)]⟩ [("uosmo", 900)]
      ⟨2024, 6, 1, 0, 0, 0⟩ 100 (by decide)).1 (by decide),
   (boundary_exact_allowed_confirms (mkCfg 500 .year) noRouteOracle
      ⟨19723 * 86400, 400, [("uosmo", 1000)]⟩ [("uosmo", 899)]
      ⟨2024, 6, 1, 0, 0, 0⟩ 101 (by decide)).2 (by decide)⟩

/-- C7: Week windows are a fixed epoch-anchored partition of the day line
into consecutive 7-day blocks (not a sliding lookback): the block containing
an epoch day starts at most six days earlier, two days share a window
exactly when they have the same epoch-anchored block index, every window
start is a Monday (epoch day congruent to the Monday anchor, at midnight
since window starts are whole-day instants), and concretely Jan 1, Jan 4 and
Jan 7 2024 share one window that Jan 8 2024 begins anew, while Feb 8 and
Feb 11 2024 share a window that Feb 12 2024 does not. -/
theorem week_windows_fixed_monday_blocks :
    (∀ d : Int, mondayOfDay d ≤ d ∧ d < mondayOfDay d + 7) ∧
    (∀ d : Int, mondayOfDay (mondayOfDay d) = mondayOfDay d) ∧
    (∀ d e : Int, mondayOfDay d = mondayOfDay e
      ↔ (mondayOfDay d ≤ e ∧ e < mondayOfDay d + 7)) ∧
    (∀ d : Int, (mondayOfDay d + 3) % 7 = 0) ∧
    (∀ t : DateTime, windowFor t .week = mondayOfDay t.epochDay * 86400) ∧
    (windowFor ⟨2024, 1, 1, 0, 0, 0⟩ .week
        = windowFor ⟨2024, 1, 4, 0, 0, 0⟩ .week ∧
      windowFor ⟨2024, 1, 4, 0, 0, 0⟩ .week
        = windowFor ⟨2024, 1, 7, 0, 0, 0⟩ .week ∧
      windowFor ⟨2024, 1, 8, 0, 0, 0⟩ .week
        ≠ windowFor ⟨2024, 1, 7, 0, 0, 0⟩ .week ∧
      windowFor ⟨2024, 1, 8, 0, 0, 0⟩ .week
        = daysFromCivil 2024 1 8 * 86400 ∧
      windowFor ⟨2024, 2, 8, 0, 0, 0⟩ .week
        = windowFor ⟨2024, 2, 11, 0, 0, 0⟩ .week ∧
      windowFor ⟨2024, 2, 12, 0, 0, 0⟩ .week
        ≠ windowFor ⟨2024, 2, 11, 0, 0, 0⟩ .week) := by
  refine ⟨?_, ?_, ?_, ?_, fun t => rfl, by decide⟩
  · intro d
    unfold mondayOfDay
    omega
  · intro d
    unfold mondayOfDay
    omega
  · intro d e
    unfold mondayOfDay
    omega
  · intro d
    unfold mondayOfDay
    omega

/-- Witness for C7: the partition facts evaluated at the epoch day of
2024-01-07 (day 19729, whose block starts at day 19723 = Monday
2024-01-01). -/
theorem week_windows_fixed_monday_blocks_witness :
    (mondayOfDay 19729 ≤ 19729 ∧ (19729 : Int) < mondayOfDay 19729 + 7) ∧
    mondayOfDay (mondayOfDay 19729) = mondayOfDay 19729 ∧
    (mondayOfDay 19729 = mondayOfDay 19723
      ↔ (mondayOfDay 19729 ≤ 19723 ∧
         (19723 : Int) < mondayOfDay 19729 + 7)) ∧
    (mondayOfDay 19729 + 3) % 7 = 0 ∧
    windowFor ⟨2024, 1, 7, 0, 0, 0⟩ .week
      = mondayOfDay (DateTime.epochDay ⟨2024, 1, 7, 0, 0, 0⟩) * 86400 :=
  ⟨week_windows_fixed_monday_blocks.1 19729,
   week_windows_fixed_monday_blocks.2.1 19729,
   week_windows_fixed_monday_blocks.2.2.1 19729 19723,
   week_windows_fixed_monday_blocks.2.2.2.1 19729,
   week_windows_fixed_monday_blocks.2.2.2.2.1 ⟨2024, 1, 7, 0, 0, 0⟩⟩

/-- C8: Initialize fails validation exactly when the allowed field is
missing, the period field is missing, the allowed amount is negative, or the
period is not one of day/week/month/year; a payload with a non-negative
allowed amount and a recognised period succeeds; unknown extra fields never
influence the outcome; and the six `TestInitialize` payloads get exactly the
recorded outcomes. -/
theorem initialize_validation_exact :
    (∀ (refDenom : String) (mode : ValueMode) (raw : RawConfig),
      (∃ cfg, initializeCfg refDenom mode raw = .ok cfg) ↔
        ((∃ a, raw.allowed = some a ∧ 0 ≤ a) ∧
         (∃ s, raw.period = some s ∧ (parsePeriod s).isSome))) ∧
    (∀ (refDenom : String) (mode : ValueMode) (a : Option Int)
      (p : Option String) (extra1 extra2 : List (String × String)),
      initializeCfg refDenom mode ⟨a, p, extra1⟩
        = initializeCfg refDenom mode ⟨a, p, extra2⟩) ∧
    ((∃ cfg, initializeCfg "uosmo" .absoluteValue
        ⟨some 100, some "day", []⟩ = .ok cfg) ∧
     (∃ cfg, initializeCfg "uosmo" .absoluteValue
        ⟨some 100, some "week", []⟩ = .ok cfg) ∧
     ¬ (∃ cfg, initializeCfg "uosmo" .absoluteValue
        ⟨some (-100), some "year", []⟩ = .ok cfg) ∧
     ¬ (∃ cfg, initializeCfg "uosmo" .absoluteValue
        ⟨some 100, some "decade", []⟩ = .ok cfg) ∧
     ¬ (∃ cfg, initializeCfg "uosmo" .absoluteValue
        ⟨none, some "day", []⟩ = .ok cfg) ∧
     ¬ (∃ cfg, initializeCfg "uosmo" .absoluteValue
        ⟨some 100, none, []⟩ = .ok cfg)) := by
  refine ⟨?_, ?_, ?_⟩
  · intro refDenom mode raw
    obtain ⟨oa, op, e⟩ := raw
    cases oa with
    | none => simp [initializeCfg]
    | some a =>
      by_cases ha : a < 0
      · simp only [initializeCfg, ha, if_true]
        constructor
        · rintro ⟨cfg, hcfg⟩
          cases hcfg
        · rintro ⟨⟨a2, ha2, ha2n⟩, _⟩
          cases ha2
          omega
      · cases op with
        | none =>
          simp only [initializeCfg, ha, if_false]
          constructor
          · rintro ⟨cfg, hcfg⟩
            cases hcfg
          · rintro ⟨_, ⟨s, hs, _⟩⟩
            cases hs
        | some s =>
          cases hp : parsePeriod s with
          | none =>
            simp only [initializeCfg, ha, if_false, hp]
            constructor
            · rintro ⟨cfg, hcfg⟩
              cases hcfg
            · rintro ⟨_, ⟨s2, hs2, hs2p⟩⟩
              cases hs2
              rw [hp] at hs2p
              cases hs2p
          | some per =>
            simp only [initializeCfg, ha, if_false, hp]
            constructor
            · intro
              exact ⟨⟨a, rfl, by omega⟩, ⟨s, rfl, by rw [hp]; rfl⟩⟩
            · intro
              exact ⟨_, rfl⟩
  · intro refDenom mode a p extra1 extra2
    rfl
  · refine ⟨⟨_, rfl⟩, ⟨_, rfl⟩, ?_, ?_, ?_, ?_⟩
    all_goals rintro ⟨cfg, hcfg⟩
    all_goals cases hcfg

/-- Witness for C8: a payload with an unknown extra field, a non-negative
allowed amount and a recognised period passes validation. -/
theorem initialize_validation_exact_witness :
    ∃ cfg, initializeCfg "uosmo" .absoluteValue
      ⟨some 100, some "day", [("memo", "extra field")]⟩ = .ok cfg :=
  (initialize_validation_exact.1 "uosmo" .absoluteValue
    ⟨some 100, some "day", [("memo", "extra field")]⟩).mpr
    ⟨⟨100, rfl, by decide⟩, ⟨"day", rfl, by decide⟩⟩

/-- C9: Whenever the valuation of the spend fails (no route, no price, or an
arithmetic failure, surfaced as an error by the valuation), ConfirmExecution
fails closed: the outcome is Block carrying that explicit reason, never
Confirm, the spend is never defaulted to zero, and the persisted accumulated
spend and stored window are left unmodified. -/
theorem valuation_failure_fails_closed (cfg : SpendLimitConfig)
    (oracle : Oracle) (st : SpendState) (post : Balances) (now : DateTime)
    (e : String)
    (he : spendValue cfg.refDenom oracle cfg.mode st.snapshot post
      = .error e) :
    confirmExecution cfg oracle st post now
      = (.block e, { st with snapshot := [] }) ∧
    (confirmExecution cfg oracle st post now).fst ≠ .confirm ∧
    (confirmExecution cfg oracle st post now).snd.accumulated
      = st.accumulated ∧
    (confirmExecution cfg oracle st post now).snd.window = st.window := by
  have h := confirmExecution_error_eq cfg oracle st post now e he
  refine ⟨h, ?_, ?_, ?_⟩
  all_goals rw [h]
  all_goals simp

/-- Witness for C9: a spend of 100 uatom with no price route blocks with the
route error as reason and leaves the ledger fields unchanged. -/
theorem valuation_failure_fails_closed_witness :
    confirmExecution (mkCfg 100 .day) noRouteOracle
        ⟨0, 40, [("uatom", 100)]⟩ [("uatom", 0)] ⟨2024, 1, 1, 0, 0, 0⟩
      = (.block "no route for uatom", ⟨0, 40, []⟩) ∧
    (confirmExecution (mkCfg 100 .day) noRouteOracle
        ⟨0, 40, [("uatom", 100)]⟩ [("uatom", 0)]
        ⟨2024, 1, 1, 0, 0, 0⟩).fst ≠ .confirm ∧
    (confirmExecution (mkCfg 100 .day) noRouteOracle
        ⟨0, 40, [("uatom", 100)]⟩ [("uatom", 0)]
        ⟨2024, 1, 1, 0, 0, 0⟩).snd.accumulated = 40 ∧
    (confirmExecution (mkCfg 100 .day) noRouteOracle
        ⟨0, 40, [("uatom", 100)]⟩ [("uatom", 0)]
        ⟨2024, 1, 1, 0, 0, 0⟩).snd.window = 0 :=
  valuation_failure_fails_closed (mkCfg 100 .day) noRouteOracle
    ⟨0, 40, [("uatom", 100)]⟩ [("uatom", 0)] ⟨2024, 1, 1, 0, 0, 0⟩
    "no route for uatom" (by decide)

/-- C10: Authenticate always succeeds and never blocks; it only stores the
pre-execution balance snapshot (the whole post-state is the prior state with
the snapshot replaced), leaving accumulated spend and the stored window
unchanged; and repeated Authenticate calls merely refresh the snapshot — a
second call erases any trace of the first. -/
theorem authenticate_always_succeeds_frame :
    (∀ (st : SpendState) (bal : Balances),
      (authenticate st bal).fst = .authenticated) ∧
    (∀ (st : SpendState) (bal : Balances),
      (authenticate st bal).snd = { st with snapshot := bal }) ∧
    (∀ (st : SpendState) (bal : Balances),
      (authenticate st bal).snd.accumulated = st.accumulated ∧
      (authenticate st bal).snd.window = st.window) ∧
    (∀ (st : SpendState) (bal1 bal2 : Balances),
      (authenticate (authenticate st bal1).snd bal2).snd
        = (authenticate st bal2).snd) :=
  ⟨fun _ _ => rfl, fun _ _ => rfl, fun _ _ => ⟨rfl, rfl⟩,
   fun _ _ _ => rfl⟩

/-- Witness for C10: Authenticate evaluated on a concrete mid-period state
succeeds and keeps the 70 accumulated and the stored window. -/
theorem authenticate_always_succeeds_frame_witness :
    (authenticate ⟨19723 * 86400, 70, []⟩ [("uosmo", 930)]).fst
      = .authenticated ∧
    (authenticate ⟨19723 * 86400, 70, []⟩ [("uosmo", 930)]).snd
      = ⟨19723 * 86400, 70, [("uosmo", 930)]⟩ ∧
    (authenticate (authenticate ⟨19723 * 86400, 70, []⟩
        [("uosmo", 999)]).snd [("uosmo", 930)]).snd
      = (authenticate ⟨19723 * 86400, 70, []⟩ [("uosmo", 930)]).snd :=
  ⟨authenticate_always_succeeds_frame.1 ⟨19723 * 86400, 70, []⟩
      [("uosmo", 930)],
   authenticate_always_succeeds_frame.2.1 ⟨19723 * 86400, 70, []⟩
      [("uosmo", 930)],
   authenticate_always_succeeds_frame.2.2.2 ⟨19723 * 86400, 70, []⟩
      [("uosmo", 999)] [("uosmo", 930)]⟩

end SpendLimits
